import Mathlib

/-!
# Verification of the NitroShare transfer state machine

A shallow embedding of `src/libnitroshare/src/transfer/transfer.cpp`
(class `TransferPrivate` / `Transfer`): the sender/receiver protocol
state machine driven by transport events, together with proofs about
its error handling, byte accounting and termination behaviour.

The embedding models each C++ method as a Lean function from the
transfer state to a new state plus a list of observable effects
(outbound packets, emitted Qt signals, transport `close()` calls,
log messages).  JSON payloads are abstracted as association lists of
key/value pairs together with the byte size and raw text of the
payload; `QJsonDocument::fromJson` is abstracted by attaching its
result (`Except` a parse-error string) to the received content.
-/

namespace Nitroshare

/-- A JSON value as far as the transfer code inspects one: either a
JSON string, or any non-string JSON value (`QJsonValue::toString`
returns the null string for the latter). -/
inductive JValue where
  | jstr (s : String)
  | jnonstr
deriving DecidableEq, Repr

/-- A JSON object: association list of fields (first binding wins,
matching `QJsonObject` lookup on our well-formed uses). -/
abbrev JObject := List (String × JValue)

/-- `QJsonObject::value(key)`: the value, or none when absent
(`QJsonValue::Undefined`). -/
def jLookup (obj : JObject) (key : String) : Option JValue :=
  (obj.find? (fun kv => kv.fst = key)).map (·.snd)

/-- `QJsonObject::contains(key)`. -/
def jContains (obj : JObject) (key : String) : Bool :=
  obj.any (fun kv => kv.fst = key)

/-- `QJsonValue::toString()` of a lookup result: the string when the
value is a JSON string, otherwise the null/empty string (also for an
absent key, i.e. `QJsonValue::Undefined`). -/
def jToString (v : Option JValue) : String :=
  match v with
  | some (JValue.jstr s) => s
  | some JValue.jnonstr => ""
  | none => ""

/-- Characters `QString::toInt`/`toLongLong` strip at both ends. -/
def isQSpace (c : Char) : Bool :=
  c = ' ' ∨ c = '\t' ∨ c = '\n' ∨ c = '\r'

/-- Parse a (whitespace-trimmed) decimal string with optional sign into
an integer; `none` when the string is not a well-formed number. -/
def parseDecTrimmed (cs : List Char) : Option Int :=
  let digitsVal (ds : List Char) : Option Int :=
    if ds = [] ∨ ds.any (fun c => ¬ c.isDigit) then none
    else some (ds.foldl (fun acc c => acc * 10 + (c.toNat - 48)) 0)
  match cs with
  | '-' :: rest => (digitsVal rest).map (fun n => -n)
  | '+' :: rest => digitsVal rest
  | _ => digitsVal cs

/-- Shared core of `QString::toInt` / `toLongLong`: trim whitespace,
parse a signed decimal number. -/
def qParseDec (s : String) : Option Int :=
  parseDecTrimmed ((s.data.dropWhile isQSpace).reverse.dropWhile isQSpace |>.reverse)

/-- `QString::toInt()`: the parsed value when it is a well-formed
decimal number within the 32-bit signed range, otherwise 0 (the
conversion "fails" and Qt returns 0 on failure or overflow). -/
def qToInt (s : String) : Int :=
  match qParseDec s with
  | some n => if -(2 ^ 31) ≤ n ∧ n ≤ 2 ^ 31 - 1 then n else 0
  | none => 0

/-- `QString::toLongLong()`: as `qToInt` but with 64-bit signed range. -/
def qToLongLong (s : String) : Int :=
  match qParseDec s with
  | some n => if -(2 ^ 63) ≤ n ∧ n ≤ 2 ^ 63 - 1 then n else 0
  | none => 0

/-- Packet type discriminant (`Packet::Type`). -/
inductive PacketType where
  | success
  | error
  | json
  | binary
deriving DecidableEq, Repr

/-- The result of `QJsonDocument::fromJson(content).object()`:
`perr msg` when parsing fails with `errorString()` = `msg`, `pok obj`
when it yields the object `obj`. -/
inductive ParseResult where
  | perr (msg : String)
  | pok (obj : JObject)
deriving DecidableEq, Repr

/-- The content of a received packet, abstracted: `size` is the byte
length of the payload, `text` the payload decoded as a string (used by
`setError(packet->content())`), and `parsed` the result of
`QJsonDocument::fromJson(content).object()`. -/
structure Content where
  size : Nat
  text : String
  parsed : ParseResult
deriving DecidableEq, Repr

/-- An outbound packet as built by the transfer code. -/
inductive OutPacket where
  | json (obj : JObject)
  | binary (size : Nat)
  | success
  | error (msg : String)
deriving DecidableEq, Repr

/-- `Transfer::Direction`. -/
inductive Direction where
  | send
  | receive
deriving DecidableEq, Repr

/-- `Transfer::State`. -/
inductive TState where
  | connecting
  | inProgress
  | succeeded
  | failed
deriving DecidableEq, Repr

/-- `TransferPrivate::ProtocolState`. -/
inductive PState where
  | transferHeader
  | itemHeader
  | itemContent
  | finished
deriving DecidableEq, Repr

/-- Observable effects of one event handler: packets handed to
`Transport::sendPacket`, Qt signals emitted on the `Transfer`,
`Transport::close()` calls, logger messages, and `crash` marking
undefined behaviour (a null or dangling `Item*` dereference). -/
inductive Effect where
  | sent (p : OutPacket)
  | stateChanged (s : TState)
  | progressChanged (p : Int)
  | deviceNameChanged (n : String)
  | errorChanged (m : String)
  | closeTransport
  | logged (m : String)
  | crash
deriving DecidableEq, Repr

/-- The `currentItem` pointer: null, a live `Item` (with its open
flag, `name()` and `size()`), or a deleted (dangling) item as left
behind by `processNext`'s `delete currentItem`. -/
inductive ItemPtr where
  | null
  | valid (isOpen : Bool) (name : String) (size : Int)
  | freed
deriving DecidableEq, Repr

/-- A sender-side bundle item: its `name()`, `size()`, whether
`open(Item::Read)` succeeds, the `QJsonObject` produced by
`JsonUtil::objectToJson` from its properties, and the byte lengths of
the successive chunks `read()` returns (after the list is exhausted
`read()` returns an empty array). -/
structure SItem where
  name : String
  size : Int
  openReadOk : Bool
  props : JObject
  chunks : List Nat
deriving DecidableEq, Repr

/-- A receiver-side item as produced by `Handler::createItem`: its
`name()`, `size()` and whether `open(Item::Write)` succeeds. -/
structure RItem where
  name : String
  size : Int
  openWriteOk : Bool
deriving DecidableEq, Repr

/-- The static environment of a transfer: the application's device
name, the handler registry (`find` returning whether a handler for a
type tag exists), the items that registered handlers create, and the
sender's bundle.  `Bundle` itself is not part of the translated
sources; per the spec it exposes the ordered item list, its length
(`rowCount`) and the sum of the item sizes (`totalSize`). -/
structure Env where
  deviceName : String
  registryFind : String → Bool
  mkItem : String → JObject → RItem
  bundle : List SItem

/-- `Bundle::totalSize()` — modelled from the spec: the sum of the
item sizes in bytes (the `Bundle` class is outside the translated
sources). -/
def bundleTotalSize (bundle : List SItem) : Int :=
  (bundle.map (·.size)).sum

/-- `bundle->index(i, 0).data(Qt::UserRole).value<Item*>()`: the item
at row `i`, or a null pointer when the index is out of range. -/
def bundleItem (bundle : List SItem) (i : Int) : Option SItem :=
  if i < 0 then none else bundle.get? i.toNat

/-- The mutable state of `TransferPrivate`.  Counter fields are
modelled as unbounded `Int` (C++ `int` for `itemCount`/`itemIndex`/
`progress`, `qint64` for the byte counters); `curChunks` carries the
remaining `read()` results of the sender's current item (state that in
C++ lives inside the `Item`). -/
structure TransferState where
  direction : Direction
  state : TState
  pstate : PState
  deviceName : String
  progress : Int
  itemIndex : Int
  itemCount : Int
  bytesTransferred : Int
  bytesTotal : Int
  currentItem : ItemPtr
  curChunks : List Nat
  currentItemBytesTransferred : Int
  currentItemBytesTotal : Int
  error : String
deriving Repr

/-- `TransferPrivate::setSuccess(bool send = false)`.  The default
argument lives in `transfer_p.h` (not among the translated sources);
modelled from the spec: the sender, on receiving `Success`, only
emits `StateChanged(Succeeded)` and closes the transport. -/
def setSuccess (send : Bool) (st : TransferState) :
    TransferState × List Effect :=
  ({ st with state := TState.succeeded },
    (if send then [Effect.sent OutPacket.success] else []) ++
      [Effect.stateChanged TState.succeeded, Effect.closeTransport])

/-- `TransferPrivate::setError(const QString &message, bool send = false)`.
Logs the message, optionally sends an `Error` packet, emits
`ErrorChanged` then `StateChanged(Failed)`, closes the transport and
sets `protocolState = Finished`.  (The default argument lives in
`transfer_p.h`, not among the translated sources; modelled from the
spec: a peer-reported error is not echoed.) -/
def setError (message : String) (send : Bool) (st : TransferState) :
    TransferState × List Effect :=
  ({ st with error := message, state := TState.failed,
             pstate := PState.finished },
    [Effect.logged message] ++
      (if send then [Effect.sent (OutPacket.error message)] else []) ++
      [Effect.errorChanged message, Effect.stateChanged TState.failed,
        Effect.closeTransport])

/-- The value `static_cast<int>(100.0 * bytesTransferred / bytesTotal)`
computes.  The C++ expression evaluates in IEEE-754 double precision
and truncates toward zero; this model uses the exact truncated
quotient, which agrees with the double computation whenever the
operands and the scaled numerator are exactly representable (in
particular for all magnitudes below 2^53 / 100). -/
def progressQuotient (bytesTransferred bytesTotal : Int) : Int :=
  Int.tdiv (100 * bytesTransferred) bytesTotal

/-- `TransferPrivate::updateProgress()`. -/
def updateProgress (st : TransferState) : TransferState × List Effect :=
  let newProgress : Int :=
    if st.bytesTotal ≠ 0 then
      progressQuotient st.bytesTransferred st.bytesTotal
    else 0
  if newProgress ≠ st.progress then
    ({ st with progress := newProgress },
      [Effect.progressChanged newProgress])
  else (st, [])

/-- `TransferPrivate::sendNext()`: close the current item, increment
the index, and move to `Finished` or back to `ItemHeader`.  Calling
`close()` through a null or dangling pointer is undefined behaviour
(`crash`). -/
def sendNext (st : TransferState) : TransferState × List Effect :=
  match st.currentItem with
  | ItemPtr.null => (st, [Effect.crash])
  | ItemPtr.freed => (st, [Effect.crash])
  | ItemPtr.valid _ n sz =>
    let st := { st with currentItem := ItemPtr.valid false n sz,
                        itemIndex := st.itemIndex + 1 }
    if st.itemIndex = st.itemCount then
      ({ st with pstate := PState.finished }, [])
    else
      ({ st with pstate := PState.itemHeader }, [])

/-- `TransferPrivate::processNext()`: close and delete the current
item, increment the index; on the last item send the success packet,
otherwise prepare for the next item header. -/
def processNext (st : TransferState) : TransferState × List Effect :=
  match st.currentItem with
  | ItemPtr.null => (st, [Effect.crash])
  | ItemPtr.freed => (st, [Effect.crash])
  | ItemPtr.valid _ _ _ =>
    let st := { st with currentItem := ItemPtr.freed,
                        itemIndex := st.itemIndex + 1 }
    if st.itemIndex = st.itemCount then
      setSuccess true st
    else
      ({ st with pstate := PState.itemHeader }, [])

/-- `TransferPrivate::sendTransferHeader()`: send the JSON transfer
header (`count` and `size` as decimal strings) and switch to
`ItemHeader`. -/
def sendTransferHeader (env : Env) (st : TransferState) :
    TransferState × List Effect :=
  let obj : JObject :=
    [("name", JValue.jstr env.deviceName),
     ("count", JValue.jstr (toString (env.bundle.length : Int))),
     ("size", JValue.jstr (toString (bundleTotalSize env.bundle)))]
  ({ st with pstate := PState.itemHeader }, [Effect.sent (OutPacket.json obj)])

/-- `TransferPrivate::sendItemHeader()`: fetch the item at
`itemIndex` (a null pointer — dereferenced, hence `crash` — when the
index is out of range), open it for reading (terminal error on
failure), reset the per-item counters, send the item header, and
either switch to `ItemContent` or advance immediately for a zero-size
item. -/
def sendItemHeader (env : Env) (st : TransferState) :
    TransferState × List Effect :=
  match bundleItem env.bundle st.itemIndex with
  | none =>
    ({ st with currentItem := ItemPtr.null }, [Effect.crash])
  | some it =>
    let st := { st with currentItem := ItemPtr.valid false it.name it.size,
                        curChunks := it.chunks }
    if ¬ it.openReadOk then
      setError ("unable to open \"" ++ it.name ++ "\" for reading") true st
    else
      let st := { st with currentItem := ItemPtr.valid true it.name it.size,
                          currentItemBytesTransferred := 0,
                          currentItemBytesTotal := it.size }
      let sendEff := [Effect.sent (OutPacket.json it.props)]
      if st.currentItemBytesTotal ≠ 0 then
        ({ st with pstate := PState.itemContent }, sendEff)
      else
        let r := sendNext st
        (r.1, sendEff ++ r.2)

/-- `currentItem->read()` for the sender: the next chunk length, and
the remaining chunks (empty read once drained). -/
def itemRead (chunks : List Nat) : Nat × List Nat :=
  match chunks with
  | [] => (0, [])
  | c :: rest => (c, rest)

/-- `TransferPrivate::sendItemContent()`: read a chunk, send it as a
`Binary` packet, account the bytes, update progress, and advance when
the item is complete. -/
def sendItemContent (st : TransferState) : TransferState × List Effect :=
  match st.currentItem with
  | ItemPtr.null => (st, [Effect.crash])
  | ItemPtr.freed => (st, [Effect.crash])
  | ItemPtr.valid _ _ _ =>
    let len := (itemRead st.curChunks).1
    let rest := (itemRead st.curChunks).2
    let st := { st with curChunks := rest,
                        bytesTransferred := st.bytesTransferred + (len : Int),
                        currentItemBytesTransferred :=
                          st.currentItemBytesTransferred + (len : Int) }
    let sendEff := [Effect.sent (OutPacket.binary len)]
    let rp := updateProgress st
    let st := rp.1
    let progEff := rp.2
    if st.currentItemBytesTransferred ≥ st.currentItemBytesTotal then
      let r := sendNext st
      (r.1, sendEff ++ progEff ++ r.2)
    else
      (st, sendEff ++ progEff)

/-- `TransferPrivate::processTransferHeader(Packet*)`: parse the JSON
header (terminal error on malformed JSON), record and possibly
announce the device name, parse `count` with `QString::toInt` and
`size` with `QString::toLongLong`, and switch to `ItemHeader`. -/
def processTransferHeader (c : Content) (st : TransferState) :
    TransferState × List Effect :=
  match c.parsed with
  | ParseResult.perr e =>
    setError ("transfer header: " ++ e) true st
  | ParseResult.pok obj =>
    let name := jToString (jLookup obj "name")
    let st := { st with deviceName := name }
    let nameEff :=
      if name ≠ "" then [Effect.deviceNameChanged name] else []
    let st :=
      { st with itemCount := qToInt (jToString (jLookup obj "count")),
                bytesTotal := qToLongLong (jToString (jLookup obj "size")),
                pstate := PState.itemHeader }
    (st, nameEff)

/-- The type-tag derivation in
`TransferPrivate::processItemHeader`: use the `type` field when
present; otherwise `"directory"` when a `directory` field is present,
else `"file"` (legacy compatibility). -/
def itemTypeOf (obj : JObject) : String :=
  if jContains obj "type" then
    jToString (jLookup obj "type")
  else
    if jContains obj "directory" then "directory" else "file"

/-- `TransferPrivate::processItemHeader(Packet*)`: parse the JSON item
header, derive the type tag, look up a handler (terminal error on
miss), create the item and open it for writing (terminal error on
failure), reset the per-item counters, and either switch to
`ItemContent` or advance immediately for a zero-size item. -/
def processItemHeader (env : Env) (c : Content) (st : TransferState) :
    TransferState × List Effect :=
  match c.parsed with
  | ParseResult.perr e =>
    setError ("item header: " ++ e) true st
  | ParseResult.pok obj =>
    let ty := itemTypeOf obj
    if ¬ env.registryFind ty then
      setError ("unrecognized item type \"" ++ ty ++ "\"") true st
    else
      let it := env.mkItem ty obj
      let st := { st with currentItem := ItemPtr.valid false it.name it.size }
      if ¬ it.openWriteOk then
        setError ("unable to open \"" ++ it.name ++ "\" for writing") true st
      else
        let st :=
          { st with currentItem := ItemPtr.valid true it.name it.size,
                    currentItemBytesTransferred := 0,
                    currentItemBytesTotal := it.size }
        if st.currentItemBytesTotal ≠ 0 then
          ({ st with pstate := PState.itemContent }, [])
        else
          processNext st

/-- `TransferPrivate::processItemContent(Packet*)`: write the payload
into the current item (undefined behaviour on a null or deleted
item), account the bytes, update progress, and advance when the item
is complete. -/
def processItemContent (c : Content) (st : TransferState) :
    TransferState × List Effect :=
  match st.currentItem with
  | ItemPtr.null => (st, [Effect.crash])
  | ItemPtr.freed => (st, [Effect.crash])
  | ItemPtr.valid _ _ _ =>
    let st :=
      { st with bytesTransferred := st.bytesTransferred + (c.size : Int),
                currentItemBytesTransferred :=
                  st.currentItemBytesTransferred + (c.size : Int) }
    let rp := updateProgress st
    let st := rp.1
    let progEff := rp.2
    if st.currentItemBytesTransferred ≥ st.currentItemBytesTotal then
      let r := processNext st
      (r.1, progEff ++ r.2)
    else
      (st, progEff)

/-- `TransferPrivate::onPacketReceived(Packet*)`: an `Error` packet is
terminal at any time (no echo); a sender accepts only `Success` while
`Finished` and treats anything else as a protocol error; a receiver
dispatches on `protocolState` alone. -/
def onPacketReceived (env : Env) (t : PacketType) (c : Content)
    (st : TransferState) : TransferState × List Effect :=
  if t = PacketType.error then
    setError c.text false st
  else if st.direction = Direction.send then
    if st.pstate = PState.finished ∧ t = PacketType.success then
      setSuccess false st
    else
      setError "protocol error - unexpected packet" true st
  else
    match st.pstate with
    | PState.transferHeader => processTransferHeader c st
    | PState.itemHeader => processItemHeader env c st
    | PState.itemContent => processItemContent c st
    | PState.finished => (st, [])

/-- `TransferPrivate::onPacketSent()`: ignored by a receiver; a sender
selects the next action from `protocolState`. -/
def onPacketSent (env : Env) (st : TransferState) :
    TransferState × List Effect :=
  if st.direction = Direction.receive then (st, [])
  else
    match st.pstate with
    | PState.transferHeader => sendTransferHeader env st
    | PState.itemHeader => sendItemHeader env st
    | PState.itemContent => sendItemContent st
    | PState.finished => (st, [])

/-- The lambda connected to `Transport::connected` (sender only):
emit `StateChanged(InProgress)` and trigger the first packet via
`onPacketSent()`. -/
def onConnected (env : Env) (st : TransferState) :
    TransferState × List Effect :=
  if st.direction = Direction.send then
    let st := { st with state := TState.inProgress }
    let r := onPacketSent env st
    (r.1, Effect.stateChanged TState.inProgress :: r.2)
  else (st, [])

/-- The events driving the machine: the transport's signals plus the
public `Transfer::cancel()` slot. -/
inductive Event where
  | connected
  | packetReceived (t : PacketType) (c : Content)
  | packetSent
  | transportError (msg : String)
  | cancel
deriving DecidableEq, Repr

/-- One event dispatch.  `transportError` is
`TransferPrivate::onError`, which calls `setError(message, true)`;
`cancel` is `Transfer::cancel()`, which calls
`setError(tr("transfer cancelled"), true)` unconditionally. -/
def step (env : Env) (st : TransferState) (ev : Event) :
    TransferState × List Effect :=
  match ev with
  | Event.connected => onConnected env st
  | Event.packetReceived t c => onPacketReceived env t c st
  | Event.packetSent => onPacketSent env st
  | Event.transportError msg => setError msg true st
  | Event.cancel => setError "transfer cancelled" true st

/-- Run a sequence of events, concatenating the effects. -/
def run (env : Env) (st : TransferState) : List Event →
    TransferState × List Effect
  | [] => (st, [])
  | ev :: evs =>
    let r1 := step env st ev
    let r2 := run env r1.1 evs
    (r2.1, r1.2 ++ r2.2)

/-- The initial state of the `TransferPrivate` constructor for a
sender (bundle present): `Connecting`, counters primed from the
bundle. -/
def initSender (env : Env) : TransferState :=
  { direction := Direction.send, state := TState.connecting,
    pstate := PState.transferHeader, deviceName := "", progress := 0,
    itemIndex := 0, itemCount := (env.bundle.length : Int),
    bytesTransferred := 0, bytesTotal := bundleTotalSize env.bundle,
    currentItem := ItemPtr.null, curChunks := [],
    currentItemBytesTransferred := 0, currentItemBytesTotal := 0,
    error := "" }

/-- The initial state of the `TransferPrivate` constructor for a
receiver (no bundle): `InProgress` immediately, zero counters. -/
def initReceiver : TransferState :=
  { direction := Direction.receive, state := TState.inProgress,
    pstate := PState.transferHeader, deviceName := "", progress := 0,
    itemIndex := 0, itemCount := 0,
    bytesTransferred := 0, bytesTotal := 0,
    currentItem := ItemPtr.null, curChunks := [],
    currentItemBytesTransferred := 0, currentItemBytesTotal := 0,
    error := "" }

/-! ## Observational predicates on effect lists -/

/-- Is this effect a `Transport::close()` call? -/
def isClose : Effect → Bool
  | Effect.closeTransport => true
  | _ => false

/-- Is this effect a `stateChanged` signal carrying a terminal state? -/
def isTerminalSC : Effect → Bool
  | Effect.stateChanged TState.succeeded => true
  | Effect.stateChanged TState.failed => true
  | _ => false

/-- Is this effect an `errorChanged` signal? -/
def isErrorChanged : Effect → Bool
  | Effect.errorChanged _ => true
  | _ => false

/-- Is this effect an outbound `Error` packet? -/
def isSentError : Effect → Bool
  | Effect.sent (OutPacket.error _) => true
  | _ => false

/-- Is this effect a `progressChanged` signal? -/
def isProgressChanged : Effect → Bool
  | Effect.progressChanged _ => true
  | _ => false

/-- Does the effect list contain an `errorChanged` signal? -/
def hasErrCh (effs : List Effect) : Bool := effs.any isErrorChanged

/-- Does the effect list contain an outbound `Error` packet? -/
def hasSentErr (effs : List Effect) : Bool := effs.any isSentError

/-- Does the effect list contain a `progressChanged` signal? -/
def hasProgress (effs : List Effect) : Bool := effs.any isProgressChanged

/-- Number of `Transport::close()` calls in the effect list. -/
def countCloses (effs : List Effect) : Nat := effs.countP isClose

/-- Number of terminal `stateChanged` signals in the effect list. -/
def countTerm (effs : List Effect) : Nat := effs.countP isTerminalSC

/-- Is this event an inbound `Error` packet (a peer-reported error)? -/
def isPeerErrorEvent : Event → Bool
  | Event.packetReceived PacketType.error _ => true
  | _ => false

/-- Effect-list sanity bundle shared by several proofs: an `Error`
packet is sent exactly when an `errorChanged` signal is emitted, and
the number of `Transport::close()` calls equals the number of
terminal `stateChanged` signals. -/
def effectsOk (effs : List Effect) : Prop :=
  hasSentErr effs = hasErrCh effs ∧ countCloses effs = countTerm effs

/-- No `errorChanged` signal in the list carries the
"protocol error - unexpected packet" message. -/
def noProtocolErrorMsg (effs : List Effect) : Prop :=
  ∀ m, Effect.errorChanged m ∈ effs →
    m ≠ "protocol error - unexpected packet"

/-! ## Claim-specific auxiliary definitions -/

/-- The type-tag derivation as the specification words it: when the
header has a `type` field, its value is the type tag; otherwise the
type is `"directory"` when a `directory` field is present and
`"file"` when it is not.  (Spec-side definition, to be compared with
the source-side `itemTypeOf`.) -/
def specItemTypeOf (obj : JObject) : String :=
  match jLookup obj "type" with
  | some v => jToString (some v)
  | none =>
    match jLookup obj "directory" with
    | some _ => "directory"
    | none => "file"

/-- A received-content hypothesis for division-safety: whenever the
payload parses as a JSON object, its `size` field (as parsed by
`QString::toLongLong`) is zero — e.g. the field is absent, not a
string, or the string `"0"`. -/
def contentSizeZero (c : Content) : Prop :=
  ∀ obj, c.parsed = ParseResult.pok obj →
    qToLongLong (jToString (jLookup obj "size")) = 0

/-- Lift `contentSizeZero` to events. -/
def eventSizeZero : Event → Prop
  | Event.packetReceived _ c => contentSizeZero c
  | _ => True

/-- The division-safety invariant for a receiver whose transfer
header carried no usable `size`: the direction stays `Receive`,
`bytesTotal` stays 0 and `progress` stays 0. -/
def recvZeroInv (st : TransferState) : Prop :=
  st.direction = Direction.receive ∧ st.bytesTotal = 0 ∧ st.progress = 0

/-- A concrete environment for witnesses and counterexamples: every
type tag has a handler, the handler creates a writable 5-byte item
named `"a"`, and the bundle is empty. -/
def envA : Env :=
  { deviceName := "alice",
    registryFind := fun _ => true,
    mkItem := fun _ _ => { name := "a", size := 5, openWriteOk := true },
    bundle := [] }

/-- A concrete received transfer header carrying the given `count`
and `size` decimal strings. -/
def headerContent (cnt sz : String) : Content :=
  { size := 40, text := "",
    parsed := ParseResult.pok
      [("name", JValue.jstr "peer"),
       ("count", JValue.jstr cnt),
       ("size", JValue.jstr sz)] }

/-- A concrete received item header for a 5-byte file named `"a"`. -/
def itemHeaderContentA : Content :=
  { size := 30, text := "",
    parsed := ParseResult.pok
      [("name", JValue.jstr "a"),
       ("type", JValue.jstr "file"),
       ("size", JValue.jstr "5")] }

/-! ## Counterexamples and concrete evaluations -/

/-- C1: counterexample.  The claim states that a transport error
sends no outbound `Error` packet; but `TransferPrivate::onError`
calls `setError(message, true)`, so a transport error on a live
(non-terminal) receiver does hand an `Error` packet to
`Transport::sendPacket`. -/
theorem C1_counterexample :
    hasSentErr (step envA initReceiver
        (Event.transportError "connection reset")).2 = true ∧
    hasErrCh (step envA initReceiver
        (Event.transportError "connection reset")).2 = true := by
  constructor <;> rfl

/-- C3: counterexample.  After one `cancel()` the transfer is
terminal (`Failed`), yet a second `cancel()` still emits
`ErrorChanged` and `StateChanged`, sends an `Error` packet, and
closes the transport again: cancelling an already-terminal transfer
is not a no-op. -/
theorem C3_counterexample :
    (step envA initReceiver Event.cancel).1.state = TState.failed ∧
    hasErrCh (step envA (step envA initReceiver Event.cancel).1
        Event.cancel).2 = true ∧
    hasSentErr (step envA (step envA initReceiver Event.cancel).1
        Event.cancel).2 = true ∧
    countCloses (step envA (step envA initReceiver Event.cancel).1
        Event.cancel).2 = 1 := by
  refine ⟨rfl, rfl, rfl, rfl⟩

/-- C4: counterexample.  The claim states the transport is closed
exactly once in every execution; the execution consisting of two
`cancel()` calls on a receiver closes it twice. -/
theorem C4_counterexample :
    countCloses (run envA initReceiver [Event.cancel, Event.cancel]).2
      = 2 := by
  rfl

/-- C5: counterexample.  A receiver that has opened an item for
writing (`protocol_state = ItemContent`) and then suffers a transport
error ends with `protocol_state = Finished` while the current item is
still open: the item is not closed on this error exit and the
open-iff-header/content invariant fails. -/
theorem C5_counterexample :
    (run envA initReceiver
        [Event.packetReceived PacketType.json (headerContent "1" "5"),
         Event.packetReceived PacketType.json itemHeaderContentA,
         Event.transportError "connection reset"]).1.currentItem
        = ItemPtr.valid true "a" 5 ∧
    (run envA initReceiver
        [Event.packetReceived PacketType.json (headerContent "1" "5"),
         Event.packetReceived PacketType.json itemHeaderContentA,
         Event.transportError "connection reset"]).1.pstate
        = PState.finished ∧
    (run envA initReceiver
        [Event.packetReceived PacketType.json (headerContent "1" "5"),
         Event.packetReceived PacketType.json itemHeaderContentA,
         Event.transportError "connection reset"]).1.state
        = TState.failed := by
  refine ⟨rfl, rfl, rfl⟩

/-- C2: evaluation at the failing input.  A transfer header carrying
`count = "2147483648"` (2^31, well within the claimed 63-bit range)
yields `item_count = 0`, because the code parses `count` with
`QString::toInt`, which returns 0 on 32-bit overflow — while `size`
is parsed with `toLongLong` and survives. -/
theorem C2_count_truncated :
    (processTransferHeader (headerContent "2147483648" "2147483648")
        initReceiver).1.itemCount = 0 ∧
    (processTransferHeader (headerContent "2147483648" "2147483648")
        initReceiver).1.bytesTotal = 2147483648 ∧
    qToInt "2147483647" = 2147483647 := by
  refine ⟨rfl, rfl, rfl⟩

/-- C6: evaluation at the failing input (an empty bundle /
`count = "0"`).  The sender, on the packet-sent event after the
transfer header, enters `sendItemHeader`, fetches a null `Item*` from
the empty bundle and dereferences it (undefined behaviour, modelled
as `crash`); the receiver of a `count = "0"` header merely moves to
`ItemHeader` — still `InProgress`, having sent no `Success` packet —
contradicting the claimed immediate success on both peers. -/
theorem C6_empty_bundle_eval :
    (run envA (initSender envA)
        [Event.connected, Event.packetSent]).2.contains Effect.crash
        = true ∧
    (run envA initReceiver
        [Event.packetReceived PacketType.json (headerContent "0" "0")]
      ).1.state = TState.inProgress ∧
    (run envA initReceiver
        [Event.packetReceived PacketType.json (headerContent "0" "0")]
      ).1.pstate = PState.itemHeader ∧
    (run envA initReceiver
        [Event.packetReceived PacketType.json (headerContent "0" "0")]
      ).2.contains (Effect.sent OutPacket.success) = false := by
  refine ⟨rfl, rfl, rfl, rfl⟩

/-! ## Effect-list lemmas -/

theorem effectsOk_nil : effectsOk [] := ⟨rfl, rfl⟩

theorem effectsOk_append {l1 l2 : List Effect}
    (h1 : effectsOk l1) (h2 : effectsOk l2) : effectsOk (l1 ++ l2) := by
  obtain ⟨a1, c1⟩ := h1
  obtain ⟨a2, c2⟩ := h2
  constructor
  · simp only [hasSentErr, hasErrCh, List.any_append] at a1 a2 ⊢
    rw [a1, a2]
  · simp only [countCloses, countTerm, List.countP_append] at c1 c2 ⊢
    rw [c1, c2]

theorem effectsOk_setSuccess (send : Bool) (st : TransferState) :
    effectsOk (setSuccess send st).2 := by
  cases send <;> exact ⟨rfl, rfl⟩

theorem effectsOk_setError_true (m : String) (st : TransferState) :
    effectsOk (setError m true st).2 := ⟨rfl, rfl⟩

theorem setError_false_facts (m : String) (st : TransferState) :
    hasSentErr (setError m false st).2 = false ∧
    hasErrCh (setError m false st).2 = true ∧
    countCloses (setError m false st).2 = 1 ∧
    countTerm (setError m false st).2 = 1 :=
  ⟨rfl, rfl, rfl, rfl⟩

theorem effectsOk_updateProgress (st : TransferState) :
    effectsOk (updateProgress st).2 := by
  unfold updateProgress
  dsimp only
  split <;> split <;> exact ⟨rfl, rfl⟩

theorem effectsOk_sendNext (st : TransferState) :
    effectsOk (sendNext st).2 := by
  rcases h : st.currentItem with _ | ⟨o, n, sz⟩ | _ <;>
      simp only [sendNext, h]
  · exact ⟨rfl, rfl⟩
  · split <;> exact ⟨rfl, rfl⟩
  · exact ⟨rfl, rfl⟩

theorem effectsOk_processNext (st : TransferState) :
    effectsOk (processNext st).2 := by
  rcases h : st.currentItem with _ | ⟨o, n, sz⟩ | _ <;>
      simp only [processNext, h]
  · exact ⟨rfl, rfl⟩
  · split
    · exact effectsOk_setSuccess true _
    · exact ⟨rfl, rfl⟩
  · exact ⟨rfl, rfl⟩

theorem effectsOk_sendTransferHeader (env : Env) (st : TransferState) :
    effectsOk (sendTransferHeader env st).2 := ⟨rfl, rfl⟩

theorem effectsOk_sendItemHeader (env : Env) (st : TransferState) :
    effectsOk (sendItemHeader env st).2 := by
  rcases h : bundleItem env.bundle st.itemIndex with _ | it <;>
      simp only [sendItemHeader, h]
  · exact ⟨rfl, rfl⟩
  · split
    · exact effectsOk_setError_true _ _
    · split
      · exact ⟨rfl, rfl⟩
      · exact effectsOk_append ⟨rfl, rfl⟩ (effectsOk_sendNext _)

theorem effectsOk_sendItemContent (st : TransferState) :
    effectsOk (sendItemContent st).2 := by
  rcases h : st.currentItem with _ | ⟨o, n, sz⟩ | _ <;>
      simp only [sendItemContent, h]
  · exact ⟨rfl, rfl⟩
  · split
    · exact effectsOk_append
        (effectsOk_append ⟨rfl, rfl⟩ (effectsOk_updateProgress _))
        (effectsOk_sendNext _)
    · exact effectsOk_append ⟨rfl, rfl⟩ (effectsOk_updateProgress _)
  · exact ⟨rfl, rfl⟩

theorem effectsOk_processTransferHeader (c : Content)
    (st : TransferState) : effectsOk (processTransferHeader c st).2 := by
  rcases h : c.parsed with e | obj <;> simp only [processTransferHeader, h]
  · exact effectsOk_setError_true _ _
  · split <;> exact ⟨rfl, rfl⟩

theorem effectsOk_processItemHeader (env : Env) (c : Content)
    (st : TransferState) : effectsOk (processItemHeader env c st).2 := by
  rcases h : c.parsed with e | obj <;> simp only [processItemHeader, h]
  · exact effectsOk_setError_true _ _
  · split
    · exact effectsOk_setError_true _ _
    · split
      · exact effectsOk_setError_true _ _
      · split
        · exact ⟨rfl, rfl⟩
        · exact effectsOk_processNext _

theorem effectsOk_processItemContent (c : Content) (st : TransferState) :
    effectsOk (processItemContent c st).2 := by
  rcases h : st.currentItem with _ | ⟨o, n, sz⟩ | _ <;>
      simp only [processItemContent, h]
  · exact ⟨rfl, rfl⟩
  · split
    · exact effectsOk_append (effectsOk_updateProgress _)
        (effectsOk_processNext _)
    · exact effectsOk_updateProgress _
  · exact ⟨rfl, rfl⟩

theorem effectsOk_onPacketSent (env : Env) (st : TransferState) :
    effectsOk (onPacketSent env st).2 := by
  unfold onPacketSent
  split
  · exact ⟨rfl, rfl⟩
  · rcases h : st.pstate with _ | _ | _ | _ <;> simp only [h]
    · exact effectsOk_sendTransferHeader _ _
    · exact effectsOk_sendItemHeader _ _
    · exact effectsOk_sendItemContent _
    · exact ⟨rfl, rfl⟩

theorem effectsOk_onConnected (env : Env) (st : TransferState) :
    effectsOk (onConnected env st).2 := by
  unfold onConnected
  split
  · have h := effectsOk_onPacketSent env
      { st with state := TState.inProgress }
    obtain ⟨a, c⟩ := h
    constructor
    · simpa only [hasSentErr, hasErrCh, List.any_cons, isSentError,
        isErrorChanged, Bool.false_or] using a
    · simpa only [countCloses, countTerm, List.countP_cons, isClose,
        isTerminalSC, Bool.false_eq_true, if_false] using c
  · exact ⟨rfl, rfl⟩

theorem onPacketReceived_error_facts (env : Env) (c : Content)
    (st : TransferState) :
    hasSentErr (onPacketReceived env PacketType.error c st).2 = false ∧
    hasErrCh (onPacketReceived env PacketType.error c st).2 = true ∧
    countCloses (onPacketReceived env PacketType.error c st).2 = 1 ∧
    countTerm (onPacketReceived env PacketType.error c st).2 = 1 :=
  setError_false_facts c.text st

theorem effectsOk_onPacketReceived (env : Env) (t : PacketType)
    (c : Content) (st : TransferState) (ht : t ≠ PacketType.error) :
    effectsOk (onPacketReceived env t c st).2 := by
  unfold onPacketReceived
  rw [if_neg ht]
  split
  · split
    · exact effectsOk_setSuccess false _
    · exact effectsOk_setError_true _ _
  · rcases h : st.pstate with _ | _ | _ | _ <;> simp only [h]
    · exact effectsOk_processTransferHeader _ _
    · exact effectsOk_processItemHeader _ _ _
    · exact effectsOk_processItemContent _ _
    · exact ⟨rfl, rfl⟩

theorem effectsOk_step_nonpeer (env : Env) (st : TransferState)
    (ev : Event) (h : isPeerErrorEvent ev = false) :
    effectsOk (step env st ev).2 := by
  cases ev with
  | connected => exact effectsOk_onConnected _ _
  | packetReceived t c =>
    refine effectsOk_onPacketReceived _ _ _ _ ?_
    intro he
    rw [he] at h
    exact absurd h (by simp [isPeerErrorEvent])
  | packetSent => exact effectsOk_onPacketSent _ _
  | transportError m => exact effectsOk_setError_true _ _
  | cancel => exact effectsOk_setError_true _ _

/-! ## Claim theorems -/

/-- C1 (amended): whenever an event handler reaches a terminal error
(emits `ErrorChanged`), an outbound `Error` packet is sent exactly
when the error is not a peer-reported error (an inbound `Error`
packet).  In particular a transport error also sends an `Error`
packet (`onError` calls `setError(message, true)`); only the
peer-reported case is silent. -/
theorem C1_amended_error_packet (env : Env) (st : TransferState)
    (ev : Event) (h : hasErrCh (step env st ev).2 = true) :
    hasSentErr (step env st ev).2 = !(isPeerErrorEvent ev) := by
  cases hp : isPeerErrorEvent ev
  · rw [(effectsOk_step_nonpeer env st ev hp).1, h, Bool.not_false]
  · cases ev with
    | packetReceived t c =>
      cases t with
      | error =>
        rw [Bool.not_true]
        exact (onPacketReceived_error_facts env c st).1
      | success => simp [isPeerErrorEvent] at hp
      | json => simp [isPeerErrorEvent] at hp
      | binary => simp [isPeerErrorEvent] at hp
    | connected => simp [isPeerErrorEvent] at hp
    | packetSent => simp [isPeerErrorEvent] at hp
    | transportError m => simp [isPeerErrorEvent] at hp
    | cancel => simp [isPeerErrorEvent] at hp

/-- C1 witness: a concrete cancellation emits `ErrorChanged` and, by
the theorem, an outbound `Error` packet. -/
theorem C1_amended_error_packet_witness :
    hasErrCh (step envA initReceiver Event.cancel).2 = true ∧
    hasSentErr (step envA initReceiver Event.cancel).2
      = !(isPeerErrorEvent Event.cancel) :=
  ⟨rfl, C1_amended_error_packet envA initReceiver Event.cancel rfl⟩

/-- C4 (amended): in every single event dispatch, the number of
`Transport::close()` calls equals the number of terminal
`StateChanged` signals (`Succeeded` or `Failed`) — the transport is
closed exactly at each terminal transition.  (Exactly once per
execution fails, since terminal transitions can recur; see the
counterexample.) -/
theorem C4_amended_close_at_terminal (env : Env) (st : TransferState)
    (ev : Event) :
    countCloses (step env st ev).2 = countTerm (step env st ev).2 := by
  cases hp : isPeerErrorEvent ev
  · exact (effectsOk_step_nonpeer env st ev hp).2
  · cases ev with
    | packetReceived t c =>
      cases t with
      | error =>
        show countCloses (onPacketReceived env PacketType.error c st).2
          = countTerm (onPacketReceived env PacketType.error c st).2
        rw [(onPacketReceived_error_facts env c st).2.2.1,
          (onPacketReceived_error_facts env c st).2.2.2]
      | success => simp [isPeerErrorEvent] at hp
      | json => simp [isPeerErrorEvent] at hp
      | binary => simp [isPeerErrorEvent] at hp
    | connected => simp [isPeerErrorEvent] at hp
    | packetSent => simp [isPeerErrorEvent] at hp
    | transportError m => simp [isPeerErrorEvent] at hp
    | cancel => simp [isPeerErrorEvent] at hp

/-- C3 (amended): cancelling an already-terminal transfer is *not* a
no-op — `Transfer::cancel` calls `setError("transfer cancelled", true)`
unguarded, so it logs, sends an `Error` packet, emits `ErrorChanged`
and `StateChanged(Failed)`, and closes the transport again. -/
theorem C3_amended_cancel_reruns (env : Env) (st : TransferState)
    (_h : st.state = TState.succeeded ∨ st.state = TState.failed) :
    (step env st Event.cancel).2 =
      [Effect.logged "transfer cancelled",
       Effect.sent (OutPacket.error "transfer cancelled"),
       Effect.errorChanged "transfer cancelled",
       Effect.stateChanged TState.failed,
       Effect.closeTransport] := rfl

/-- C3 witness: the terminal state reached by a first `cancel()` still
produces the full error-path effects on a second `cancel()`. -/
theorem C3_amended_cancel_reruns_witness :
    ((step envA initReceiver Event.cancel).1.state = TState.succeeded ∨
      (step envA initReceiver Event.cancel).1.state = TState.failed) ∧
    (step envA (step envA initReceiver Event.cancel).1 Event.cancel).2 =
      [Effect.logged "transfer cancelled",
       Effect.sent (OutPacket.error "transfer cancelled"),
       Effect.errorChanged "transfer cancelled",
       Effect.stateChanged TState.failed,
       Effect.closeTransport] :=
  ⟨Or.inr rfl,
    C3_amended_cancel_reruns envA (step envA initReceiver Event.cancel).1
      (Or.inr rfl)⟩

/-- C5 (amended): the current item is closed only on normal advance:
`sendNext` closes it (and `processNext` closes and deletes it), but
`setError` — the common path of terminal error, cancellation and
transport failure — leaves `currentItem` untouched, so an item that
was open stays open on every error exit. -/
theorem C5_amended_error_leaves_item (m : String) (b : Bool)
    (st : TransferState) (o : Bool) (n : String) (sz : Int)
    (h : st.currentItem = ItemPtr.valid o n sz) :
    (setError m b st).1.currentItem = st.currentItem ∧
    (sendNext st).1.currentItem = ItemPtr.valid false n sz ∧
    (processNext st).1.currentItem = ItemPtr.freed := by
  refine ⟨rfl, ?_, ?_⟩
  · simp only [sendNext, h]
    split <;> rfl
  · simp only [processNext, h]
    split <;> rfl

/-- C5 witness: at the concrete receiver state holding the open item
`"a"`, the error path preserves it while the advance paths close it. -/
theorem C5_amended_error_leaves_item_witness :
    (run envA initReceiver
      [Event.packetReceived PacketType.json (headerContent "1" "5"),
       Event.packetReceived PacketType.json itemHeaderContentA]
      ).1.currentItem = ItemPtr.valid true "a" 5 ∧
    ((setError "boom" true (run envA initReceiver
        [Event.packetReceived PacketType.json (headerContent "1" "5"),
         Event.packetReceived PacketType.json itemHeaderContentA]).1
      ).1.currentItem
        = (run envA initReceiver
            [Event.packetReceived PacketType.json (headerContent "1" "5"),
             Event.packetReceived PacketType.json itemHeaderContentA]
            ).1.currentItem ∧
      (sendNext (run envA initReceiver
          [Event.packetReceived PacketType.json (headerContent "1" "5"),
           Event.packetReceived PacketType.json itemHeaderContentA]).1
        ).1.currentItem = ItemPtr.valid false "a" 5 ∧
      (processNext (run envA initReceiver
          [Event.packetReceived PacketType.json (headerContent "1" "5"),
           Event.packetReceived PacketType.json itemHeaderContentA]).1
        ).1.currentItem = ItemPtr.freed) :=
  ⟨rfl, C5_amended_error_leaves_item "boom" true _ true "a" 5 rfl⟩

theorem jContains_eq (obj : JObject) (key : String) :
    jContains obj key = (jLookup obj key).isSome := by
  induction obj with
  | nil => rfl
  | cons kv rest ih =>
    by_cases h : kv.fst = key
    · simp [jContains, jLookup, List.find?_cons, h]
    · simp only [jContains, jLookup, List.any_cons, List.find?_cons,
        h, decide_False, Bool.false_or, if_false] at ih ⊢
      simpa [jContains, jLookup] using ih

/-- C8: the receiver's item-type derivation in `processItemHeader`
agrees with the specification's rule: the `type` field's value when
present, else `"directory"` when a `directory` field is present, else
`"file"`. -/
theorem C8_item_type_derivation (obj : JObject) :
    itemTypeOf obj = specItemTypeOf obj := by
  unfold itemTypeOf specItemTypeOf
  rw [jContains_eq, jContains_eq]
  rcases h : jLookup obj "type" with _ | v
  · rcases h2 : jLookup obj "directory" with _ | v2 <;> simp [h, h2]
  · simp [h]

theorem head_append (a b : String) (c : Char)
    (h : a.data.head? = some c) : (a ++ b).data.head? = some c := by
  rw [String.data_append]
  rcases hd : a.data with _ | ⟨x, xs⟩
  · rw [hd] at h
    exact Option.noConfusion h
  · rw [hd] at h
    simpa using h

theorem ne_protocol_of_head (s : String) (c : Char)
    (hs : s.data.head? = some c) (hc : c ≠ 'p') :
    s ≠ "protocol error - unexpected packet" := by
  intro h
  rw [h] at hs
  injection hs with hs2
  exact hc hs2.symm

theorem setError_errMsg (m msg : String) (b : Bool) (st : TransferState)
    (hm : Effect.errorChanged m ∈ (setError msg b st).2) : m = msg := by
  cases b <;> simp [setError] at hm <;> exact hm

theorem errCh_not_mem_updateProgress (m : String) (st : TransferState) :
    Effect.errorChanged m ∉ (updateProgress st).2 := by
  unfold updateProgress
  dsimp only
  split <;> split <;> simp

theorem errCh_not_mem_setSuccess (m : String) (send : Bool)
    (st : TransferState) :
    Effect.errorChanged m ∉ (setSuccess send st).2 := by
  cases send <;> simp [setSuccess]

theorem errCh_not_mem_processNext (m : String) (st : TransferState) :
    Effect.errorChanged m ∉ (processNext st).2 := by
  rcases h : st.currentItem with _ | ⟨o, n, sz⟩ | _ <;>
      simp only [processNext, h]
  · simp
  · split
    · exact errCh_not_mem_setSuccess m true _
    · simp
  · simp

theorem noProt_processTransferHeader (c : Content) (st : TransferState) :
    noProtocolErrorMsg (processTransferHeader c st).2 := by
  intro m hm
  rcases h : c.parsed with e | obj <;>
      simp only [processTransferHeader, h] at hm
  · rw [setError_errMsg m _ true st hm]
    exact ne_protocol_of_head _ 't' (head_append _ _ 't' rfl) (by decide)
  · split at hm <;> simp at hm

theorem noProt_processItemHeader (env : Env) (c : Content)
    (st : TransferState) :
    noProtocolErrorMsg (processItemHeader env c st).2 := by
  intro m hm
  rcases h : c.parsed with e | obj <;>
      simp only [processItemHeader, h] at hm
  · rw [setError_errMsg m _ true st hm]
    exact ne_protocol_of_head _ 'i' (head_append _ _ 'i' rfl) (by decide)
  · split at hm
    · rw [setError_errMsg m _ true st hm]
      exact ne_protocol_of_head _ 'u'
        (head_append _ _ 'u' (head_append _ _ 'u' rfl)) (by decide)
    · split at hm
      · rw [setError_errMsg m _ true _ hm]
        exact ne_protocol_of_head _ 'u'
          (head_append _ _ 'u' (head_append _ _ 'u' rfl)) (by decide)
      · split at hm
        · simp at hm
        · exact absurd hm (errCh_not_mem_processNext m _)

theorem noProt_processItemContent (c : Content) (st : TransferState) :
    noProtocolErrorMsg (processItemContent c st).2 := by
  intro m hm
  rcases h : st.currentItem with _ | ⟨o, n, sz⟩ | _ <;>
      simp only [processItemContent, h] at hm
  · simp at hm
  · split at hm
    · rcases List.mem_append.mp hm with h1 | h1
      · exact absurd h1 (errCh_not_mem_updateProgress m _)
      · exact absurd h1 (errCh_not_mem_processNext m _)
    · exact absurd hm (errCh_not_mem_updateProgress m _)
  · simp at hm

/-- C9: on the receiver, every non-`Error` packet is dispatched by
`protocol_state` alone — the result does not depend on the packet's
type discriminant — and no dispatch ever emits the
"protocol error - unexpected packet" error (that path is reachable
only with `direction = Send`). -/
theorem C9_receiver_dispatch_ignores_type (env : Env)
    (st : TransferState) (c : Content) (t t' : PacketType)
    (hd : st.direction = Direction.receive)
    (ht : t ≠ PacketType.error) (ht' : t' ≠ PacketType.error) :
    step env st (Event.packetReceived t c)
      = step env st (Event.packetReceived t' c) ∧
    noProtocolErrorMsg (step env st (Event.packetReceived t c)).2 := by
  have hds : ¬ st.direction = Direction.send := by
    rw [hd]
    intro hx
    cases hx
  constructor
  · show onPacketReceived env t c st = onPacketReceived env t' c st
    unfold onPacketReceived
    rw [if_neg ht, if_neg ht', if_neg hds, if_neg hds]
  · show noProtocolErrorMsg (onPacketReceived env t c st).2
    unfold onPacketReceived
    rw [if_neg ht, if_neg hds]
    rcases h : st.pstate with _ | _ | _ | _ <;> simp only [h]
    · exact noProt_processTransferHeader _ _
    · exact noProt_processItemHeader _ _ _
    · exact noProt_processItemContent _ _
    · intro m hm
      simp at hm

/-- C9 witness: a `Success` and a `Binary` packet received in the
initial receiver state are handled identically. -/
theorem C9_receiver_dispatch_witness :
    initReceiver.direction = Direction.receive ∧
    step envA initReceiver
        (Event.packetReceived PacketType.success (headerContent "0" "0"))
      = step envA initReceiver
        (Event.packetReceived PacketType.binary (headerContent "0" "0")) ∧
    noProtocolErrorMsg (step envA initReceiver
        (Event.packetReceived PacketType.success
          (headerContent "0" "0"))).2 :=
  ⟨rfl,
    (C9_receiver_dispatch_ignores_type envA initReceiver
      (headerContent "0" "0") PacketType.success PacketType.binary rfl
      (by decide) (by decide)).1,
    (C9_receiver_dispatch_ignores_type envA initReceiver
      (headerContent "0" "0") PacketType.success PacketType.binary rfl
      (by decide) (by decide)).2⟩

theorem updateProgress_zero (st : TransferState)
    (h0 : st.bytesTotal = 0) (hp : st.progress = 0) :
    updateProgress st = (st, []) := by
  simp [updateProgress, h0, hp]

theorem recvZero_processNext (st : TransferState) (hI : recvZeroInv st) :
    recvZeroInv (processNext st).1 ∧
    hasProgress (processNext st).2 = false := by
  obtain ⟨hd, h0, hp⟩ := hI
  rcases h : st.currentItem with _ | ⟨o, n, sz⟩ | _ <;>
      simp only [processNext, h]
  · exact ⟨⟨hd, h0, hp⟩, rfl⟩
  · split
    · exact ⟨⟨hd, h0, hp⟩, rfl⟩
    · exact ⟨⟨hd, h0, hp⟩, rfl⟩
  · exact ⟨⟨hd, h0, hp⟩, rfl⟩

theorem recvZero_processTransferHeader (c : Content)
    (st : TransferState) (hI : recvZeroInv st) (hc : contentSizeZero c) :
    recvZeroInv (processTransferHeader c st).1 ∧
    hasProgress (processTransferHeader c st).2 = false := by
  obtain ⟨hd, h0, hp⟩ := hI
  rcases h : c.parsed with e | obj <;>
      simp only [processTransferHeader, h]
  · exact ⟨⟨hd, h0, hp⟩, rfl⟩
  · refine ⟨⟨hd, hc obj h, hp⟩, ?_⟩
    split <;> rfl

theorem recvZero_processItemHeader (env : Env) (c : Content)
    (st : TransferState) (hI : recvZeroInv st) :
    recvZeroInv (processItemHeader env c st).1 ∧
    hasProgress (processItemHeader env c st).2 = false := by
  obtain ⟨hd, h0, hp⟩ := hI
  rcases h : c.parsed with e | obj <;>
      simp only [processItemHeader, h]
  · exact ⟨⟨hd, h0, hp⟩, rfl⟩
  · split
    · exact ⟨⟨hd, h0, hp⟩, rfl⟩
    · split
      · exact ⟨⟨hd, h0, hp⟩, rfl⟩
      · split
        · exact ⟨⟨hd, h0, hp⟩, rfl⟩
        · exact recvZero_processNext _ ⟨hd, h0, hp⟩

theorem recvZero_processItemContent (c : Content) (st : TransferState)
    (hI : recvZeroInv st) :
    recvZeroInv (processItemContent c st).1 ∧
    hasProgress (processItemContent c st).2 = false := by
  obtain ⟨hd, h0, hp⟩ := hI
  rcases h : st.currentItem with _ | ⟨o, n, sz⟩ | _ <;>
      simp only [processItemContent, h]
  · exact ⟨⟨hd, h0, hp⟩, rfl⟩
  · rw [updateProgress_zero]
    · split
      · rw [List.nil_append]
        exact recvZero_processNext _ ⟨hd, h0, hp⟩
      · exact ⟨⟨hd, h0, hp⟩, rfl⟩
    · exact h0
    · exact hp
  · exact ⟨⟨hd, h0, hp⟩, rfl⟩

theorem recvZero_step (env : Env) (st : TransferState) (ev : Event)
    (hI : recvZeroInv st) (hev : eventSizeZero ev) :
    recvZeroInv (step env st ev).1 ∧
    hasProgress (step env st ev).2 = false := by
  obtain ⟨hd, h0, hp⟩ := hI
  have hds : ¬ st.direction = Direction.send := by
    rw [hd]
    intro hx
    cases hx
  cases ev with
  | connected =>
    show recvZeroInv (onConnected env st).1 ∧
      hasProgress (onConnected env st).2 = false
    unfold onConnected
    rw [if_neg hds]
    exact ⟨⟨hd, h0, hp⟩, rfl⟩
  | packetSent =>
    show recvZeroInv (onPacketSent env st).1 ∧
      hasProgress (onPacketSent env st).2 = false
    unfold onPacketSent
    rw [if_pos hd]
    exact ⟨⟨hd, h0, hp⟩, rfl⟩
  | transportError m => exact ⟨⟨hd, h0, hp⟩, rfl⟩
  | cancel => exact ⟨⟨hd, h0, hp⟩, rfl⟩
  | packetReceived t c =>
    show recvZeroInv (onPacketReceived env t c st).1 ∧
      hasProgress (onPacketReceived env t c st).2 = false
    unfold onPacketReceived
    by_cases ht : t = PacketType.error
    · rw [if_pos ht]
      exact ⟨⟨hd, h0, hp⟩, rfl⟩
    · rw [if_neg ht, if_neg hds]
      rcases h : st.pstate with _ | _ | _ | _ <;> simp only [h]
      · exact recvZero_processTransferHeader c st ⟨hd, h0, hp⟩ hev
      · exact recvZero_processItemHeader env c st ⟨hd, h0, hp⟩
      · exact recvZero_processItemContent c st ⟨hd, h0, hp⟩
      · exact ⟨⟨hd, h0, hp⟩, rfl⟩

theorem recvZero_run (env : Env) (es : List Event) (st : TransferState)
    (hI : recvZeroInv st) (h : ∀ ev ∈ es, eventSizeZero ev) :
    recvZeroInv (run env st es).1 ∧
    hasProgress (run env st es).2 = false := by
  induction es generalizing st with
  | nil => exact ⟨hI, rfl⟩
  | cons ev evs ih =>
    have h1 := recvZero_step env st ev hI (h ev (List.mem_cons_self ev evs))
    have h2 := ih (step env st ev).1 h1.1
      (fun e he => h e (List.mem_cons_of_mem ev he))
    refine ⟨h2.1, ?_⟩
    show hasProgress
      ((step env st ev).2 ++ (run env (step env st ev).1 evs).2) = false
    have e1 := h1.2
    have e2 := h2.2
    simp only [hasProgress] at e1 e2 ⊢
    rw [List.any_append, e1, e2]
    rfl

/-- C10: the progress computation is division-safe.  For a receiver
whose incoming JSON headers never provide a nonzero `size`
(`bytes_total` stays 0, e.g. the field is absent or unparsable),
`updateProgress` takes the guarded `bytesTotal == 0` branch: over any
whole event sequence the `progress` value remains 0 and no
`ProgressChanged` signal is ever emitted. -/
theorem C10_division_safety (env : Env) (es : List Event)
    (h : ∀ ev ∈ es, eventSizeZero ev) :
    (run env initReceiver es).1.progress = 0 ∧
    hasProgress (run env initReceiver es).2 = false := by
  have hr := recvZero_run env es initReceiver ⟨rfl, rfl, rfl⟩ h
  exact ⟨hr.1.2.2, hr.2⟩

/-- C10 witness: a concrete receiver run — a transfer header with
`size = "0"` followed by item content and a cancel — never emits
`ProgressChanged`. -/
theorem C10_division_safety_witness :
    (∀ ev ∈ [Event.packetReceived PacketType.json (headerContent "1" "0"),
        Event.cancel], eventSizeZero ev) ∧
    (run envA initReceiver
      [Event.packetReceived PacketType.json (headerContent "1" "0"),
       Event.cancel]).1.progress = 0 ∧
    hasProgress (run envA initReceiver
      [Event.packetReceived PacketType.json (headerContent "1" "0"),
       Event.cancel]).2 = false := by
  have h : ∀ ev ∈ [Event.packetReceived PacketType.json
      (headerContent "1" "0"), Event.cancel], eventSizeZero ev := by
    intro ev hev
    rcases List.mem_cons.mp hev with rfl | hev2
    · intro obj hobj
      cases hobj
      rfl
    · rcases List.mem_cons.mp hev2 with rfl | hev3
      · trivial
      · exact absurd hev3 (List.not_mem_nil ev)
  exact ⟨h, C10_division_safety envA _ h⟩

end Nitroshare
